import Mathlib

/-!
Verification of the Sphinx build configuration `docs/source/conf.py` of the
compi repository.  The file is a flat sequence of module-level assignments of
literal Python values, plus a single module import, so we embed it as a list
of statements over an inductive type of Python values, evaluate the module
into a namespace (an association list of variable bindings), and prove the
specification's claims about the resulting configuration record.
-/

/-- A Python value as it occurs in `conf.py`: booleans, integers, strings,
lists, and string-keyed dictionaries (whose entry order is preserved). -/
inductive PyValue where
  | bool (b : Bool)
  | int (n : Int)
  | str (s : String)
  | list (xs : List PyValue)
  | dict (entries : List (String × PyValue))

/-- A top-level statement of `conf.py`: either an assignment of a literal
value to a module-level name, or an import of a module by name. -/
inductive Stmt where
  | assign (name : String) (value : PyValue)
  | pyImport (module : String)

/-- Bind `name` to `v` in a namespace, overwriting an existing binding for
`name` in place (Python assignment semantics), else appending it. -/
def setVar : List (String × PyValue) → String → PyValue → List (String × PyValue)
  | [], n, v => [(n, v)]
  | (m, w) :: rest, n, v =>
      if m = n then (m, v) :: rest else (m, w) :: setVar rest n v

/-- Look up the value bound to `name` in a namespace or dictionary. -/
def lookupVar : List (String × PyValue) → String → Option PyValue
  | [], _ => none
  | (m, v) :: rest, n => if m = n then some v else lookupVar rest n

/-- Effect of one statement on the module namespace: an assignment binds its
name; an import binds nothing visible to the configuration record. -/
def evalStmt (env : List (String × PyValue)) : Stmt → List (String × PyValue)
  | .assign n v => setVar env n v
  | .pyImport _ => env

/-- Evaluate a list of statements in order, starting from `env`. -/
def evalModuleFrom (env : List (String × PyValue)) (stmts : List Stmt) :
    List (String × PyValue) :=
  stmts.foldl evalStmt env

/-- Evaluate a list of statements in order, with failure: an import succeeds
only when the imported module is among the available modules `avail`, and
otherwise evaluation of the file stops with an import error naming the
missing module (Python `ImportError` semantics). -/
def evalModuleE (avail : List String) :
    List (String × PyValue) → List Stmt → Except String (List (String × PyValue))
  | env, [] => .ok env
  | env, .assign n v :: rest => evalModuleE avail (setVar env n v) rest
  | env, .pyImport m :: rest =>
      if m ∈ avail then evalModuleE avail env rest else .error m

/-- Effect of one statement when every assignment is treated as a fresh
binding appended at the end (never overwriting an existing one). -/
def appendStmt (env : List (String × PyValue)) : Stmt → List (String × PyValue)
  | .assign n v => env ++ [(n, v)]
  | .pyImport _ => env

/-- Evaluate a list of statements with append-only (no-overwrite) semantics. -/
def appendEvalFrom (env : List (String × PyValue)) (stmts : List Stmt) :
    List (String × PyValue) :=
  stmts.foldl appendStmt env

/-- The names assigned by the statements of a module, in order. -/
def assignedNames (stmts : List Stmt) : List String :=
  stmts.filterMap fun s =>
    match s with
    | .assign n _ => some n
    | .pyImport _ => none

/-- The top-level statements of `docs/source/conf.py`, in source order. -/
def confStatements : List Stmt :=
  [ .assign "project" (.str "compi"),
    .assign "copyright" (.str "2025, cmelnu"),
    .assign "author" (.str "cmelnu"),
    .assign "extensions" (.list []),
    .assign "templates_path" (.list [.str "_templates"]),
    .assign "exclude_patterns" (.list []),
    .pyImport "sphinx_rtd_theme",
    .assign "html_theme" (.str "sphinx_rtd_theme"),
    .assign "html_theme_options" (.dict
      [ ("navigation_depth", .int 5),
        ("collapse_navigation", .bool false),
        ("sticky_navigation", .bool true),
        ("includehidden", .bool true),
        ("titles_only", .bool false),
        ("style_nav_header_background", .str "#2980B9") ]),
    .assign "html_static_path" (.list [.str "_static"]),
    .assign "html_css_files" (.list [.str "custom.css"]),
    .assign "html_context" (.dict
      [ ("display_github", .bool true),
        ("github_user", .str "cmelnu"),
        ("github_repo", .str "compi"),
        ("github_version", .str "main"),
        ("conf_py_path", .str "/docs/source/") ]),
    .assign "pygments_style" (.str "monokai") ]

/-- The module namespace produced by evaluating `conf.py`. -/
def confNamespace : List (String × PyValue) :=
  evalModuleFrom [] confStatements

/-- The dictionary entries of a value, when it is a dictionary. -/
def getDict : Option PyValue → List (String × PyValue)
  | some (.dict entries) => entries
  | _ => []

/-- The `html_theme_options` dictionary of the configuration. -/
def confThemeOptions : List (String × PyValue) :=
  getDict (lookupVar confNamespace "html_theme_options")

/-- The `html_context` dictionary of the configuration. -/
def confHtmlContext : List (String × PyValue) :=
  getDict (lookupVar confNamespace "html_context")

/-- Is the value a string? -/
def isStr : PyValue → Bool
  | .str _ => true
  | _ => false

/-- Is the value a list whose elements are all strings? -/
def isStrList : PyValue → Bool
  | .list xs => xs.all isStr
  | _ => false

/-- Is the value a bool, a string, or an int (the admissible types of the
values of `html_theme_options`)? -/
def isThemeOptionValue : PyValue → Bool
  | .bool _ => true
  | .str _ => true
  | .int _ => true
  | _ => false

/-- Is the value a bool or a string (the admissible types of the values of
`html_context`)? -/
def isContextValue : PyValue → Bool
  | .bool _ => true
  | .str _ => true
  | _ => false

/-- Is the value a string-keyed dictionary all of whose values satisfy `p`? -/
def isDictOf (p : PyValue → Bool) : PyValue → Bool
  | .dict entries => entries.all fun kv => p kv.2
  | _ => false

/-- When `key` is present in the namespace, its value satisfies `p`;
a key that is absent imposes nothing. -/
def keyHasType (ns : List (String × PyValue)) (key : String)
    (p : PyValue → Bool) : Bool :=
  match lookupVar ns key with
  | some v => p v
  | none => true

/-- A well-formed CSS hex color: a hash sign followed by exactly six
hexadecimal digits. -/
def isCssHexColor (s : String) : Bool :=
  s.length == 7 && s.data.take 1 == ['#'] &&
    (s.data.drop 1).all fun c =>
      c.isDigit || (decide ('a' ≤ c) && decide (c ≤ 'f')) ||
        (decide ('A' ≤ c) && decide (c ≤ 'F'))

/-- The string begins and ends with a slash character. -/
def startsEndsWithSlash (s : String) : Bool :=
  s.data.head? == some '/' && s.data.getLast? == some '/'

/-- Claim C1: in the configuration record, if `html_context['display_github']`
is true, then `html_context['github_user']`, `html_context['github_repo']`
and `html_context['github_version']` are all non-empty strings. -/
theorem display_github_implies_repo_fields_nonempty
    (h : lookupVar confHtmlContext "display_github" = some (.bool true)) :
    (∃ s, lookupVar confHtmlContext "github_user" = some (.str s) ∧ s ≠ "") ∧
    (∃ s, lookupVar confHtmlContext "github_repo" = some (.str s) ∧ s ≠ "") ∧
    (∃ s, lookupVar confHtmlContext "github_version" = some (.str s) ∧ s ≠ "") :=
  ⟨⟨"cmelnu", rfl, by decide⟩, ⟨"compi", rfl, by decide⟩, ⟨"main", rfl, by decide⟩⟩

/-- Witness for C1: the hypothesis holds in this configuration, and the
conclusion follows by the theorem. -/
theorem display_github_implies_repo_fields_nonempty_witness :
    lookupVar confHtmlContext "display_github" = some (.bool true) ∧
    ((∃ s, lookupVar confHtmlContext "github_user" = some (.str s) ∧ s ≠ "") ∧
     (∃ s, lookupVar confHtmlContext "github_repo" = some (.str s) ∧ s ≠ "") ∧
     (∃ s, lookupVar confHtmlContext "github_version" = some (.str s) ∧ s ≠ "")) :=
  ⟨rfl, display_github_implies_repo_fields_nonempty rfl⟩

/-- Claim C2: every recognized configuration key that is present has the type
the specification's table gives it: `project`, `copyright`, `author`,
`html_theme` and `pygments_style` are strings; `extensions`,
`templates_path`, `exclude_patterns`, `html_static_path` and
`html_css_files` are lists of strings (never a single string);
`html_theme_options` maps strings to bool, string or int; `html_context`
maps strings to bool or string. -/
theorem recognized_keys_well_typed :
    keyHasType confNamespace "project" isStr = true ∧
    keyHasType confNamespace "copyright" isStr = true ∧
    keyHasType confNamespace "author" isStr = true ∧
    keyHasType confNamespace "html_theme" isStr = true ∧
    keyHasType confNamespace "pygments_style" isStr = true ∧
    keyHasType confNamespace "extensions" isStrList = true ∧
    keyHasType confNamespace "templates_path" isStrList = true ∧
    keyHasType confNamespace "exclude_patterns" isStrList = true ∧
    keyHasType confNamespace "html_static_path" isStrList = true ∧
    keyHasType confNamespace "html_css_files" isStrList = true ∧
    keyHasType confNamespace "html_theme_options" (isDictOf isThemeOptionValue) = true ∧
    keyHasType confNamespace "html_context" (isDictOf isContextValue) = true :=
  ⟨rfl, rfl, rfl, rfl, rfl, rfl, rfl, rfl, rfl, rfl, rfl, rfl⟩

/-- Claim C3: `html_theme_options['navigation_depth']` is a positive integer,
and its value in this configuration is exactly 5. -/
theorem navigation_depth_positive_and_five :
    ∃ n : Int, lookupVar confThemeOptions "navigation_depth" = some (.int n) ∧
      0 < n ∧ n = 5 :=
  ⟨5, rfl, by norm_num, rfl⟩

/-- Counterexample to C4 as stated: the file contains an import statement
(`import sphinx_rtd_theme`, its seventh statement), an operation beyond
providing values, and when that module is unavailable the evaluation of the
file itself stops with an import error — a failure raised by this file, not
detected by the consuming tool. -/
theorem conf_import_can_fail :
    confStatements[6]? = some (Stmt.pyImport "sphinx_rtd_theme") ∧
    evalModuleE [] [] confStatements = Except.error "sphinx_rtd_theme" :=
  ⟨rfl, rfl⟩

/-- Claim C4 (amended): aside from one import statement naming
`sphinx_rtd_theme`, every statement of the file is an assignment of a
literal value — no computation, no branching — and when that module is
available the file evaluates without error to exactly the declared
namespace; the import, however, is an error path of the file itself. -/
theorem conf_straight_line_declarations :
    (confStatements.all fun s =>
      match s with
      | .assign _ _ => true
      | .pyImport m => m == "sphinx_rtd_theme") = true ∧
    evalModuleE ["sphinx_rtd_theme"] [] confStatements = .ok confNamespace :=
  ⟨rfl, rfl⟩

/-- Claim C5: every field is bound exactly once: the assigned names of the
module are pairwise distinct, and evaluating the module under Python's
overwriting assignment gives byte-for-byte the same namespace as evaluating
it with append-only (no-rebinding) semantics — no binding is ever mutated,
so the configuration has the single loaded state and no transitions. -/
theorem conf_fields_never_mutated :
    (assignedNames confStatements).Nodup ∧
    evalModuleFrom [] confStatements = appendEvalFrom [] confStatements :=
  ⟨by decide, rfl⟩

/-- Claim C6: loading the same declarations a second time, on top of the
namespace produced by the first load, yields exactly the namespace of the
first load — every field's value is byte-identical across the two loads, and
no hidden state can make the second load differ. -/
theorem conf_reload_idempotent :
    evalModuleFrom (evalModuleFrom [] confStatements) confStatements =
      evalModuleFrom [] confStatements :=
  rfl

/-- Claim C7: the configuration provides exactly the example-scenario
values: `project` is 'compi', `author` is 'cmelnu', `html_theme` is
'sphinx_rtd_theme', and the theme's navigation depth is 5. -/
theorem conf_example_scenario_values :
    lookupVar confNamespace "project" = some (.str "compi") ∧
    lookupVar confNamespace "author" = some (.str "cmelnu") ∧
    lookupVar confNamespace "html_theme" = some (.str "sphinx_rtd_theme") ∧
    lookupVar confThemeOptions "navigation_depth" = some (.int 5) :=
  ⟨rfl, rfl, rfl, rfl⟩

/-- Claim C8: in this configuration instance both the `extensions` sequence
and the `exclude_patterns` sequence are empty. -/
theorem conf_extensions_and_excludes_empty :
    lookupVar confNamespace "extensions" = some (.list []) ∧
    lookupVar confNamespace "exclude_patterns" = some (.list []) :=
  ⟨rfl, rfl⟩

/-- Claim C9: `html_theme_options['style_nav_header_background']` is the
string '#2980B9', a well-formed CSS hex color: a hash sign followed by
exactly six hexadecimal digits. -/
theorem style_nav_header_background_hex_color :
    lookupVar confThemeOptions "style_nav_header_background" =
      some (.str "#2980B9") ∧
    isCssHexColor "#2980B9" = true :=
  ⟨rfl, by decide⟩

/-- Claim C10: `html_context['conf_py_path']` is the string '/docs/source/',
which both begins and ends with a slash character. -/
theorem conf_py_path_slash_delimited :
    lookupVar confHtmlContext "conf_py_path" = some (.str "/docs/source/") ∧
    startsEndsWithSlash "/docs/source/" = true :=
  ⟨rfl, by decide⟩
